import Mathlib

/-!
Verification of the query-resolution backend (FastAPI RAG service).

This file gives a shallow embedding of the backend's core modules and proves
the specification claims about them:

* `backend/classifier.py` — keyword intent classifier (`is_legal_question`);
* `backend/search.py`     — in-memory cosine-similarity search
  (`local_similarity_search`);
* `backend/llm.py`        — resilient LLM gateway (`call_llm`);
* `backend/main.py`       — the `/query/` orchestrator (`query_facts`).

Modelling conventions:

* Python floats are modelled as exact rationals (`ℚ`).  The square root used
  by `np.linalg.norm` is not rational, so every definition and theorem is
  parametric in a function `sq : ℚ → ℚ` standing for the square root applied
  to a sum of squares; all theorems hold for every such function.
* Python strings are Lean `String`s.  Python's `str.lower`, `str.strip` and
  `str.replace` are re-implemented over `List Char` (`pyLower`, `pyStrip`,
  `pyReplace`) so that concrete instances reduce inside the kernel; they
  agree with CPython on the ASCII inputs the backend manipulates.
* Network effects are passed in explicitly: the Qdrant client and the HTTP
  transport are function parameters, and each outward call is recorded in a
  trace so that claims of the form "never attempts the call" are statements
  about the trace.
* Fallible Python code (`try`/`except`) is modelled by `Option`/explicit
  error branches mirroring which handler catches each exception.
-/

/-! ## Python string primitives -/

/-- Substring test on character lists: Python's `needle in hay`.
An empty needle is contained in everything, as in Python. -/
def containsSub : List Char → List Char → Bool
  | [], needle => needle.isEmpty
  | h :: t, needle => needle.isPrefixOf (h :: t) || containsSub t needle

/-- Python's `needle in hay` for strings. -/
def strContainsSub (hay needle : String) : Bool :=
  containsSub hay.toList needle.toList

/-- Python's `str.lower` (ASCII-faithful). -/
def pyLower (s : String) : String :=
  ⟨s.data.map Char.toLower⟩

/-- Whitespace characters stripped by Python's `str.strip()`. -/
def pySpace (c : Char) : Bool :=
  c = ' ' || c = '\t' || c = '\n' || c = '\r' || c = '\x0b' || c = '\x0c'

/-- Python's `str.strip()`: drop leading and trailing whitespace. -/
def pyStrip (s : String) : String :=
  ⟨((s.data.dropWhile pySpace).reverse.dropWhile pySpace).reverse⟩

/-- Python's `str.startswith`. -/
def pyStartsWith (s pre : String) : Bool :=
  pre.toList.isPrefixOf s.toList

/-- Fuel-driven worker for `pyReplace`; the fuel is the length of the string,
which bounds the number of replacement steps.  Replacements are non-overlapping
and proceed left to right, as in CPython. -/
def pyReplaceAux (needle repl : List Char) : Nat → List Char → List Char
  | 0, s => s
  | _ + 1, [] => []
  | fuel + 1, h :: t =>
    if needle ≠ [] ∧ needle.isPrefixOf (h :: t) then
      repl ++ pyReplaceAux needle repl fuel (List.drop (needle.length - 1) t)
    else
      h :: pyReplaceAux needle repl fuel t

/-- Python's `str.replace(needle, repl)` (all occurrences, left to right).
The backend only ever replaces non-empty needles, so the empty-needle case
is the identity here. -/
def pyReplace (s needle repl : String) : String :=
  ⟨pyReplaceAux needle.toList repl.toList (s.toList.length + 1) s.toList⟩

/-- Python truthiness of an optional string (`None` and `""` are falsy):
used for `os.environ.get` results. -/
def truthy : Option String → Bool
  | none => false
  | some s => s ≠ ""

/-! ## backend/classifier.py -/

/-- The fixed keyword list `LEGAL_KEYWORDS` of `backend/classifier.py`
(the source lists "liable" twice; the duplicate is kept verbatim). -/
def LEGAL_KEYWORDS : List String :=
  ["law", "case", "court", "act", "section", "judgment", "verdict",
   "appeal", "sentence", "advocate", "bail", "petition", "hearing",
   "order", "statute", "liable", "liable"]

/-- Embedding of `classifier.is_legal_question`: falsy (empty) input returns
`false`; otherwise the lower-cased text is tested for each keyword with
Python's `in` (substring membership), returning `true` on the first hit. -/
def is_legal_question (text : String) : Bool :=
  if text = "" then false
  else LEGAL_KEYWORDS.any fun kw => containsSub (pyLower text).toList kw.toList

/-! ## backend/search.py — data model and local similarity search -/

/-- A corpus fact `{id, text, vector}`: a `FACTS` entry of `backend/main.py`
after `prepare_facts_with_vectors` has attached an embedding (named
`FactRec` because `Fact` is taken by Mathlib).  `id` is read
with `fact.get("id")` in the source, which may yield `None`, hence `Option`.
The lazy vector backfill in `local_similarity_search` only calls the external
embedding model, so vectors are modelled as already present. -/
structure FactRec where
  id : Option Int
  text : String
  vector : List ℚ
deriving DecidableEq

/-- The match record `{"text": ..., "id": ..., "score": ...}` returned by the
search helpers. -/
structure RetrievalMatch where
  text : String
  id : Option Int
  score : ℚ
deriving DecidableEq

/-- Dot product of two equally long vectors (`vectors @ q` rowwise). -/
def dot (xs ys : List ℚ) : ℚ :=
  (List.zipWith (fun a b => a * b) xs ys).sum

/-- Sum of squares of a vector; `np.linalg.norm v = sqrt (sumSq v)`. -/
def sumSq (xs : List ℚ) : ℚ :=
  (xs.map fun a => a * a).sum

/-- Cosine similarity of one corpus vector `v` against the query vector, as
computed rowwise by lines 87-90 of `backend/search.py`: the denominator
`norm q * norm v` is replaced by `1e-12` when it is zero, then the row dot
product is divided by it.  `sq` stands for the square root used by
`np.linalg.norm`. -/
def cosineSim (sq : ℚ → ℚ) (question_vec v : List ℚ) : ℚ :=
  let denom := sq (sumSq question_vec) * sq (sumSq v)
  let d := if denom = 0 then 1 / 1000000000000 else denom
  dot v question_vec / d

/-- One step of the first-argmax fold: keep the incumbent unless the new
score is strictly larger (so ties keep the earlier index, as `np.argmax`). -/
def pickMax (b x : FactRec × ℚ) : FactRec × ℚ :=
  if b.2 < x.2 then x else b

/-- First maximum of a scored list: `np.argmax` returns the first index
attaining the maximum, modelled as a fold that keeps the earlier element
unless a strictly larger score appears. -/
def bestPair : List (FactRec × ℚ) → Option (FactRec × ℚ)
  | [] => none
  | p :: ps => some (ps.foldl pickMax p)

/-- Embedding of `search.local_similarity_search` (threshold default 0.45 at
the call site that omits it).  The try/except wrapper returns `None` whenever
the NumPy code raises, which happens exactly when the corpus is empty
(`np.argmax` of an empty array) or some vector's length differs from the
query's (ragged `np.array` / shape-mismatched `@`); both cases are the
`none` branches here.  Otherwise the best (first-argmax) scored fact is
returned iff its score reaches the threshold. -/
def local_similarity_search (sq : ℚ → ℚ) (facts : List FactRec)
    (question_vec : List ℚ) (threshold : ℚ) : Option RetrievalMatch :=
  if facts.all (fun f => f.vector.length = question_vec.length) then
    match bestPair (facts.map fun f => (f, cosineSim sq question_vec f.vector)) with
    | none => none
    | some bp => if bp.2 ≥ threshold then some ⟨bp.1.text, bp.1.id, bp.2⟩ else none
  else none

/-! ## backend/llm.py — data model -/

/-- The response envelope dictionary `{answer, source, mode}` produced by the
LLM gateway and by the orchestrator. -/
structure Envelope where
  answer : String
  source : String
  mode : String
deriving DecidableEq

/-- Minimal JSON values, for the schema-tolerant response parsing of
`call_llm`. -/
inductive JVal where
  | jnull : JVal
  | jbool : Bool → JVal
  | jnum : ℚ → JVal
  | jstr : String → JVal
  | jlist : List JVal → JVal
  | jobj : List (String × JVal) → JVal

/-- Python truthiness of a JSON value (`None`, `False`, `0`, `""`, `[]` and
an empty dict are falsy). -/
def jTruthy : JVal → Bool
  | .jnull => false
  | .jbool b => b
  | .jnum x => x ≠ 0
  | .jstr s => s ≠ ""
  | .jlist xs => !xs.isEmpty
  | .jobj fs => !fs.isEmpty

/-- Truthiness of `dict.get`-style results: an absent key (`none`) is falsy. -/
def jTruthyO : Option JVal → Bool
  | none => false
  | some v => jTruthy v

/-- Python's `a or b` on `dict.get` results: keep `a` when truthy, else `b`. -/
def pyOr (a b : Option JVal) : Option JVal :=
  if jTruthyO a then a else b

/-- Lookup in a JSON object (Python `dict.get` / `in`). -/
def lookupJ : List (String × JVal) → String → Option JVal
  | [], _ => none
  | (k, v) :: rest, key => if k = key then some v else lookupJ rest key

mutual
/-- Rendering of a JSON value to text, standing in for Python's `str()` in
the parser's last-resort `str(data)` fallback (the exact CPython repr is not
reproduced; no claim depends on the rendering). -/
def jToString : JVal → String
  | .jnull => "None"
  | .jbool true => "True"
  | .jbool false => "False"
  | .jnum x => toString x
  | .jstr s => s
  | .jlist xs => "[" ++ jListStr xs ++ "]"
  | .jobj fs => "\x7b" ++ jObjStr fs ++ "\x7d"

/-- Comma-separated rendering of a JSON array's elements. -/
def jListStr : List JVal → String
  | [] => ""
  | [x] => jToString x
  | x :: xs => jToString x ++ ", " ++ jListStr xs

/-- Comma-separated rendering of a JSON object's fields. -/
def jObjStr : List (String × JVal) → String
  | [] => ""
  | [(k, v)] => k ++ ": " ++ jToString v
  | (k, v) :: xs => k ++ ": " ++ jToString v ++ ", " ++ jObjStr xs
end

/-- The answer placed in the envelope for an extracted JSON value: a string
is kept as is, any other value stands for the raw JSON value Python would
return (rendered to text in this model). -/
def answerString : JVal → String
  | .jstr s => s
  | v => jToString v

/-- The candidate request bodies of `call_llm`, one constructor per JSON
body schema built at lines 100-118 of `backend/llm.py`:
`promptText q` is `{"prompt": {"text": q}}`;
`promptContent q` is `{"prompt": {"content": [{"type": "text", "text": q}]}}`;
`inputStr q` is `{"input": q}`;
`inputText q` is `{"input": {"text": q}}`;
`instancesInput q` is `{"instances": [{"input": q}]}`;
`instancesInputText q` is `{"instances": [{"input": {"text": q}}]}`;
`messages q` is `{"messages": [{"author": "user", "content": [{"type": "text", "text": q}]}]}`;
`instancesContent q` is `{"instances": [{"content": [{"type": "text", "text": q}]}]}`;
`textBody q` is `{"text": q}`;
`modelPrompt m q` is `{"model": m, "prompt": {"text": q}}`. -/
inductive ReqBody where
  | promptText (question : String)
  | promptContent (question : String)
  | inputStr (question : String)
  | inputText (question : String)
  | instancesInput (question : String)
  | instancesInputText (question : String)
  | messages (question : String)
  | instancesContent (question : String)
  | textBody (question : String)
  | modelPrompt (model question : String)
deriving DecidableEq

/-- Outcome of one `requests.post`: either the call raised (timeout,
connection error, ...) or a response arrived with a status code and, when
the body is valid JSON, its parsed value (`none` models `r.json()` raising). -/
inductive PostResult where
  | raised : PostResult
  | resp (status : Nat) (data : Option JVal) : PostResult

/-- One attempted HTTP request of the gateway: target URL and request body.
Headers and query params are deterministic functions of the configuration
(API key or bearer token) and are not modelled; no claim concerns them. -/
structure LLMCall where
  url : String
  body : ReqBody
deriving DecidableEq

/-- The Gemini settings read from the environment by `get_gemini_config`:
`GEMINI_API_KEY`, `GEMINI_BEARER_TOKEN`, `GEMINI_MODEL` (defaulted to
"gemini-2.5-flash" by `os.environ.get`) and the `GEMINI_API_URL` override. -/
structure GeminiConfig where
  api_key : Option String
  bearer_token : Option String
  model : String
  api_url : Option String
deriving DecidableEq

/-- The API URL computed by `get_gemini_config`: the `GEMINI_API_URL`
override when truthy, else the v1beta `generateContent` URL for the model. -/
def gemini_api_url (cfg : GeminiConfig) : String :=
  if truthy cfg.api_url then cfg.api_url.getD "" else
    let model_path :=
      if pyStartsWith cfg.model "models/" then cfg.model else "models/" ++ cfg.model
    "https://generativelanguage.googleapis.com/v1beta/" ++ model_path ++ ":generateContent"

/-- The ordered `candidate_bodies` list of `call_llm` for a googleapis URL:
nine historical body schemas for v1beta/v1beta2/v1 endpoints, otherwise the
three-element generic-googleapis list (lines 100-118 of `backend/llm.py`). -/
def candidate_bodies_for (question : String) (cfg : GeminiConfig) : List ReqBody :=
  let url := gemini_api_url cfg
  if strContainsSub url "/v1beta/" || strContainsSub url "/v1beta2/" || strContainsSub url "/v1/" then
    [.promptText question, .promptContent question, .inputStr question,
     .inputText question, .instancesInput question, .instancesInputText question,
     .messages question, .instancesContent question, .textBody question]
  else
    [.modelPrompt cfg.model question, .inputStr question, .instancesInput question]

/-- The bounded fallback URL list built in the HTTPError handler of
`call_llm` (lines 180-198): generation-verb suffix swaps, then API-version
path-segment swaps, in source order.  `str.replace` replaces every
occurrence, so a URL containing ":generateContent" also matches the
":generate" case, exactly as in the source. -/
def fallback_attempts (url : String) : List String :=
  (if strContainsSub url ":generateContent" then
     [pyReplace url ":generateContent" ":generate",
      pyReplace url ":generateContent" ":generateText"] else [])
  ++ (if strContainsSub url ":generate" then
     [pyReplace url ":generate" ":generateContent",
      pyReplace url ":generate" ":generateText"] else [])
  ++ (if strContainsSub url ":generateText" then
     [pyReplace url ":generateText" ":generateContent",
      pyReplace url ":generateText" ":generate"] else [])
  ++ (if strContainsSub url "/v1beta/" then [pyReplace url "/v1beta/" "/v1beta2/"] else [])
  ++ (if strContainsSub url "/v1beta2/" then [pyReplace url "/v1beta2/" "/v1beta/"] else [])
  ++ (if strContainsSub url "/v1beta/" || strContainsSub url "/v1beta2/" then
     [if strContainsSub url "/v1beta/" then pyReplace url "/v1beta/" "/v1/"
      else pyReplace url "/v1beta2/" "/v1/"] else [])

/-! ## backend/llm.py — response parsing -/

/-- The inner `try` of the "output" branch (line 160-163): extract
`data["output"][0]["content"][0].get("text")`, with any indexing or
attribute error caught locally and turned into `None`. -/
def outputPathAnswer (o : JVal) : Option JVal :=
  match o with
  | .jobj of2 =>
    match lookupJ of2 "content" with
    | some (.jlist (c0 :: _)) =>
      match c0 with
      | .jobj c0f => lookupJ c0f "text"
      | _ => none
    | _ => none
  | _ => none

/-- Schema-tolerant answer extraction for the initial response (lines
152-176 of `backend/llm.py`).  `none` models an exception escaping to the
generic handler (which then returns the failure envelope): that happens when
`data["candidates"][0]` is not a dict (`.get` on it raises) or when the
generic `data.get(...)` chain runs with `data` not a dict.  Otherwise the
answer is, in priority order: `candidates[0].content or candidates[0].output`;
`output[0].content[0].text`; the `text` field; `str(candidates[0])` for a
present-but-empty candidate list (which raises locally and yields `None`,
falling to the generic chain); and finally the truthy-first chain
`output or content or message or text or str(data)`. -/
def extract_answer (data : JVal) : Option String :=
  match data with
  | .jobj fields =>
    let step : Except Unit (Option JVal) :=
      match lookupJ fields "candidates" with
      | some (.jlist (c :: _)) =>
        (match c with
         | .jobj cf => .ok (pyOr (lookupJ cf "content") (lookupJ cf "output"))
         | _ => .error ())
      | _ =>
        match lookupJ fields "output" with
        | some (.jlist (o :: _)) => .ok (outputPathAnswer o)
        | _ =>
          if (lookupJ fields "text").isSome then .ok (lookupJ fields "text")
          else
            match lookupJ fields "candidates" with
            | some (.jlist []) => .ok none
            | some (.jlist (c :: _)) => .ok (some (.jstr (jToString c)))
            | _ => .ok none
    match step with
    | .error _ => none
    | .ok a =>
      if jTruthyO a then some (answerString (a.getD .jnull))
      else
        some (answerString ((pyOr (lookupJ fields "output")
          (pyOr (lookupJ fields "content")
            (pyOr (lookupJ fields "message")
              (pyOr (lookupJ fields "text")
                (some (.jstr (jToString data))))))).getD .jnull))
  | _ => none

/-- Answer extraction for fallback-URL responses (lines 211-223): same as
`extract_answer` but without the `str(candidates[0])` branch.  Here `none`
(an exception) is caught by the per-URL handler, which proceeds to the next
fallback URL instead of failing the call. -/
def extract_answer2 (data : JVal) : Option String :=
  match data with
  | .jobj fields =>
    let step : Except Unit (Option JVal) :=
      match lookupJ fields "candidates" with
      | some (.jlist (c :: _)) =>
        (match c with
         | .jobj cf => .ok (pyOr (lookupJ cf "content") (lookupJ cf "output"))
         | _ => .error ())
      | _ =>
        match lookupJ fields "output" with
        | some (.jlist (o :: _)) => .ok (outputPathAnswer o)
        | _ =>
          if (lookupJ fields "text").isSome then .ok (lookupJ fields "text")
          else .ok none
    match step with
    | .error _ => none
    | .ok a =>
      if jTruthyO a then some (answerString (a.getD .jnull))
      else
        some (answerString ((pyOr (lookupJ fields "output")
          (pyOr (lookupJ fields "content")
            (pyOr (lookupJ fields "message")
              (pyOr (lookupJ fields "text")
                (some (.jstr (jToString data))))))).getD .jnull))
  | _ => none

/-! ## backend/llm.py — the gateway -/

/-- Fixed envelopes returned by `call_llm`. -/
def mockEnvelope : Envelope :=
  ⟨"LLM not configured (mock reply).", "mock", "llm"⟩

/-- Envelope for an unrecognized provider (line 237). -/
def unknownProviderEnvelope : Envelope :=
  ⟨"LLM provider unknown (mock).", "mock", "llm"⟩

/-- The fixed failure envelope returned when every attempt fails (lines
229 and 232). -/
def failEnvelope : Envelope :=
  ⟨"LLM request failed (fallback mock).", "llm:gemini-failed", "llm"⟩

/-- Envelope for a successful SDK generation (line 78). -/
def sdkEnvelope (text : String) : Envelope :=
  ⟨text, "llm:gemini-sdk", "llm"⟩

/-- Outcome of the candidate-body loop (lines 126-138). -/
inductive CandResult where
  | raised (trace : List LLMCall) : CandResult
  | success (body : ReqBody) (status : Nat) (data : Option JVal)
      (trace : List LLMCall) : CandResult
  | exhausted (lastBody : ReqBody) (trace : List LLMCall) : CandResult

/-- The candidate-body loop: post each body in order to the configured URL;
break on the first non-error status; a raising post escapes to the generic
handler (`raised`); if every body yields an HTTP error, the loop ends with
the last body and the recorded last error (`last_err`) and the code re-raises
into the fallback-URL stage (`exhausted`).  The last accumulator mirrors the
`last_err`/`body` locals: `none` on an empty body list means `r = None`,
which the code turns into a raise (unreachable: both candidate lists are
non-empty). -/
def candidateLoop (post : String → ReqBody → PostResult) (url : String) :
    List ReqBody → List LLMCall → Option ReqBody → CandResult
  | [], trace, none => .raised trace
  | [], trace, some lastb => .exhausted lastb trace
  | b :: rest, trace, _ =>
    match post url b with
    | .raised => .raised (trace ++ [⟨url, b⟩])
    | .resp st data =>
      if 400 ≤ st then candidateLoop post url rest (trace ++ [⟨url, b⟩]) (some b)
      else .success b st data (trace ++ [⟨url, b⟩])

/-- Handling of a non-error initial response (lines 144-176): a body that is
not JSON or an extraction error raises to the generic handler (failure
envelope); otherwise the parsed answer is returned with source
`llm:gemini`. -/
def parse_success (data : Option JVal) (trace : List LLMCall) :
    Envelope × List LLMCall :=
  match data with
  | none => (failEnvelope, trace)
  | some d =>
    match extract_answer d with
    | none => (failEnvelope, trace)
    | some ans => (⟨ans, "llm:gemini", "llm"⟩, trace)

/-- The fallback-URL loop (lines 200-226): post the last-used body to each
fallback URL in order; any raising post, error status, non-JSON body or
extraction error is caught per attempt and the loop continues; the first
fully successful attempt returns its parsed answer. -/
def fallbackLoop (post : String → ReqBody → PostResult) (body : ReqBody) :
    List String → List LLMCall → Option Envelope × List LLMCall
  | [], trace => (none, trace)
  | u :: rest, trace =>
    match post u body with
    | .raised => fallbackLoop post body rest (trace ++ [⟨u, body⟩])
    | .resp st data =>
      if 400 ≤ st then fallbackLoop post body rest (trace ++ [⟨u, body⟩])
      else
        match data with
        | none => fallbackLoop post body rest (trace ++ [⟨u, body⟩])
        | some d =>
          match extract_answer2 d with
          | none => fallbackLoop post body rest (trace ++ [⟨u, body⟩])
          | some ans => (some ⟨ans, "llm:gemini", "llm"⟩, trace ++ [⟨u, body⟩])

/-- The REST portion of `call_llm` for the gemini provider (lines 84-232),
reached when credentials exist and the SDK produced no usable text.  For a
googleapis URL the candidate bodies are posted in order, then fallback URLs
are tried on total HTTP failure.  For any other URL the source never assigns
`candidate_bodies` (only the dead local `body`), so the loop raises
`NameError`, which the generic handler turns into the failure envelope with
no HTTP attempt made. -/
def gemini_rest (question : String) (cfg : GeminiConfig)
    (post : String → ReqBody → PostResult) : Envelope × List LLMCall :=
  let url := gemini_api_url cfg
  if strContainsSub url "googleapis" then
    match candidateLoop post url (candidate_bodies_for question cfg) [] none with
    | .raised tr => (failEnvelope, tr)
    | .success _ _ data tr => parse_success data tr
    | .exhausted lastBody tr =>
      match fallbackLoop post lastBody (fallback_attempts url) tr with
      | (some env, tr2) => (env, tr2)
      | (none, tr2) => (failEnvelope, tr2)
  else (failEnvelope, [])

/-- Embedding of `llm.call_llm`.  `cfg` is the environment configuration
read at call time; `sdk` is the outcome of the optional google.generativeai
SDK attempt (`none` when the SDK is absent or raised — all its exceptions
are swallowed — and `some t` when `chat.send_message` produced text `t`,
used only when truthy); `post` is the HTTP transport.  The second component
is the trace of attempted HTTP requests, in order. -/
def call_llm (question provider : String) (cfg : GeminiConfig)
    (sdk : Option String) (post : String → ReqBody → PostResult) :
    Envelope × List LLMCall :=
  if pyLower provider = "gemini" then
    if truthy cfg.api_key = false ∧ truthy cfg.bearer_token = false then
      (mockEnvelope, [])
    else
      match sdk with
      | some t => if t ≠ "" then (sdkEnvelope t, []) else gemini_rest question cfg post
      | none => gemini_rest question cfg post
  else (unknownProviderEnvelope, [])

/-! ## backend/main.py — the orchestrator -/

/-- Outward calls the orchestrator can make while handling one request. -/
inductive Event where
  | qdrantQuery (vec : List ℚ) : Event
  | llmCall (question provider : String) : Event
deriving DecidableEq

/-- Result of `POST /query/`: a 400 for an empty trimmed question, otherwise
a 200 with a response envelope. -/
inductive QueryResult where
  | badRequest (detail : String) : QueryResult
  | ok (envelope : Envelope) : QueryResult
deriving DecidableEq

/-- Rendering of an optional id inside an f-string (`str(None) = "None"`). -/
def idString : Option Int → String
  | none => "None"
  | some n => toString n

/-- Process-wide state and collaborators of `backend/main.py` as seen by
`query_facts`: the embedding model (`model.encode`), the square-root stand-in
for vector norms, the `FACTS` corpus, the `qdrant_available` flag, the
`FALLBACK_TO_LLM_FOR_LEGAL` flag, the Qdrant query
(`search.query_qdrant client QDRANT_COLLECTION - 1`, returning `none` on any
error), the collection name, the `LLM_PROVIDER` value (defaulted to
"gemini"), and the LLM gateway inputs. -/
structure AppEnv where
  encode : String → List ℚ
  sq : ℚ → ℚ
  facts : List FactRec
  qdrant_available : Bool
  fallback_to_llm_for_legal : Bool
  qdrant : List ℚ → Option RetrievalMatch
  collection : String
  provider : String
  llm_cfg : GeminiConfig
  sdk : Option String
  post : String → ReqBody → PostResult

/-- The legal-topic fallback of `query_facts` (lines 167-175): the loose
0.45-threshold in-memory search, then the optional LLM-for-legal fallback,
then the fixed "No relevant info found." envelope. -/
def legal_fallback (E : AppEnv) (question : String) (question_vec : List ℚ)
    (tr : List Event) : QueryResult × List Event :=
  match local_similarity_search E.sq E.facts question_vec (45/100) with
  | some best =>
    (.ok ⟨best.text, "in-memory:fact-id=" ++ idString best.id, "legal"⟩, tr)
  | none =>
    if E.fallback_to_llm_for_legal then
      let llm_res := (call_llm question E.provider E.llm_cfg E.sdk E.post).1
      (.ok ⟨llm_res.answer, llm_res.source, "legal-llm"⟩,
       tr ++ [.llmCall question E.provider])
    else (.ok ⟨"No relevant info found.", "none", "legal"⟩, tr)

/-- Embedding of the `POST /query/` handler `query_facts` (lines 133-194 of
`backend/main.py`).  The second component is the trace of outward calls.
The code after the if/else at lines 156-179 (lines 181-194) is unreachable
— both branches return — and is not modelled. -/
def query_facts (E : AppEnv) (raw_question : String) :
    QueryResult × List Event :=
  let question := pyStrip raw_question
  if question = "" then
    (.badRequest "Question must be a non-empty string", [])
  else
    let question_vec := E.encode question
    match local_similarity_search E.sq E.facts question_vec (7/10) with
    | some local_best =>
      (.ok ⟨local_best.text, "in-memory:fact-id=" ++ idString local_best.id,
            "retrieved"⟩, [])
    | none =>
      if is_legal_question question then
        if E.qdrant_available then
          match E.qdrant question_vec with
          | some results =>
            (.ok ⟨results.text,
                  "qdrant:" ++ E.collection ++ " id=" ++ idString results.id,
                  "legal"⟩, [.qdrantQuery question_vec])
          | none => legal_fallback E question question_vec [.qdrantQuery question_vec]
        else legal_fallback E question question_vec []
      else
        let llm_res := (call_llm question E.provider E.llm_cfg E.sdk E.post).1
        (.ok ⟨llm_res.answer, llm_res.source, llm_res.mode⟩,
         [.llmCall question E.provider])

/-! ## Concrete fixtures used by witnesses and counterexamples -/

/-- A transport on which every HTTP attempt fails before a response. -/
def postRaise : String → ReqBody → PostResult := fun _ _ => .raised

/-- A transport that would answer 200 with a parseable body on every post
(used to show that some code paths never consult the transport at all). -/
def postOk : String → ReqBody → PostResult :=
  fun _ _ => .resp 200 (some (.jobj [("text", .jstr "ok")]))

/-- Configuration with no credentials set. -/
def cfgUnconfigured : GeminiConfig := ⟨none, none, "gemini-2.5-flash", none⟩

/-- Configuration with an API key and the default googleapis URL. -/
def cfgKeyDefault : GeminiConfig := ⟨some "k", none, "gemini-2.5-flash", none⟩

/-- Configuration with an API key and a non-googleapis `GEMINI_API_URL`
override (a generic provider endpoint). -/
def cfgKeyGeneric : GeminiConfig :=
  ⟨some "k", none, "gemini-2.5-flash", some "https://api.example.com/models/foo:generate"⟩

/-- The corpus fact `{id: 2, text: "Pavan has 82 apples"}` with a stand-in
unit embedding. -/
def factPavan : FactRec := ⟨some 2, "Pavan has 82 apples", [1, 0]⟩

/-- Environment in which the question embeds onto the corpus fact exactly
(cosine similarity 1), Qdrant is unavailable and no LLM is configured. -/
def envRetrieve : AppEnv :=
  ⟨fun _ => [1, 0], id, [factPavan], false, false, fun _ => none, "apples",
   "gemini", cfgUnconfigured, none, postRaise⟩

/-- Environment in which the question embeds orthogonally to the corpus
(cosine similarity 0), Qdrant is unavailable, the LLM-for-legal flag is off
and no LLM is configured. -/
def envLegal : AppEnv :=
  ⟨fun _ => [0, 1], id, [factPavan], false, false, fun _ => none, "apples",
   "gemini", cfgUnconfigured, none, postRaise⟩

/-- Environment with an empty corpus, Qdrant unavailable, no LLM credentials
and `FALLBACK_TO_LLM_FOR_LEGAL` enabled. -/
def envLegalLLM : AppEnv :=
  ⟨fun _ => [0, 1], id, [], false, true, fun _ => none, "apples",
   "gemini", cfgUnconfigured, none, postRaise⟩

/-- Environment with an empty corpus, Qdrant unavailable, the LLM-for-legal
flag off and no LLM credentials. -/
def envGeneric : AppEnv :=
  ⟨fun _ => [0, 1], id, [], false, false, fun _ => none, "apples",
   "gemini", cfgUnconfigured, none, postRaise⟩

/-- Every request on this transport fails: the post raises or returns an
HTTP error status (≥ 400). -/
def postAlwaysFails (post : String → ReqBody → PostResult) : Prop :=
  ∀ u b, post u b = .raised ∨ ∃ st d, post u b = .resp st d ∧ 400 ≤ st

/-! ## Helper lemmas -/

/-- Characterization of the substring test: Python's `needle in hay`. -/
theorem containsSub_iff (hay needle : List Char) :
    containsSub hay needle = true ↔ ∃ l r, hay = l ++ needle ++ r := by
  induction hay with
  | nil =>
    simp only [containsSub, List.isEmpty_iff]
    constructor
    · rintro rfl
      exact ⟨[], [], rfl⟩
    · rintro ⟨l, r, h⟩
      have hlen := congrArg List.length h
      simp only [List.length_nil, List.length_append] at hlen
      exact List.eq_nil_of_length_eq_zero (by omega)
  | cons h t ih =>
    simp only [containsSub, Bool.or_eq_true, ih, List.isPrefixOf_iff_prefix]
    constructor
    · rintro (hp | ⟨l, r, rfl⟩)
      · obtain ⟨r, hr⟩ := hp
        exact ⟨[], r, by simpa using hr.symm⟩
      · exact ⟨h :: l, r, rfl⟩
    · rintro ⟨l, r, he⟩
      cases l with
      | nil =>
        left
        exact ⟨r, by simpa using he.symm⟩
      | cons a l₂ =>
        right
        refine ⟨l₂, r, ?_⟩
        rw [List.cons_append, List.cons_append] at he
        exact (List.cons_eq_cons.mp he).2

/-- The first-argmax fold dominates its seed and every scanned element. -/
theorem foldl_pickMax_le (l : List (FactRec × ℚ)) :
    ∀ p : FactRec × ℚ,
      p.2 ≤ (l.foldl pickMax p).2 ∧ ∀ x ∈ l, x.2 ≤ (l.foldl pickMax p).2 := by
  induction l with
  | nil => intro p; simp
  | cons y ys ih =>
    intro p
    obtain ⟨h1, h2⟩ := ih (pickMax p y)
    have hp : p.2 ≤ (pickMax p y).2 := by
      unfold pickMax
      split
      · exact le_of_lt (by assumption)
      · exact le_refl _
    have hy : y.2 ≤ (pickMax p y).2 := by
      unfold pickMax
      split
      · exact le_refl _
      · exact le_of_not_lt (by assumption)
    refine ⟨le_trans hp h1, ?_⟩
    intro x hx
    rcases List.mem_cons.mp hx with rfl | hmem
    · exact le_trans hy h1
    · exact h2 x hmem

/-- The first-argmax fold returns its seed or a scanned element. -/
theorem foldl_pickMax_mem (l : List (FactRec × ℚ)) :
    ∀ p : FactRec × ℚ, l.foldl pickMax p = p ∨ l.foldl pickMax p ∈ l := by
  induction l with
  | nil => intro p; simp
  | cons y ys ih =>
    intro p
    rcases ih (pickMax p y) with h | h
    · rw [List.foldl_cons, h]
      unfold pickMax
      split
      · exact Or.inr (List.mem_cons_self _ _)
      · exact Or.inl rfl
    · exact Or.inr (List.mem_cons_of_mem _ h)

/-- A `bestPair` result is an element of the list and maximizes the score. -/
theorem bestPair_spec (l : List (FactRec × ℚ)) (bp : FactRec × ℚ)
    (h : bestPair l = some bp) : bp ∈ l ∧ ∀ x ∈ l, x.2 ≤ bp.2 := by
  cases l with
  | nil => cases h
  | cons p ps =>
    have hbp : ps.foldl pickMax p = bp := by
      simpa [bestPair] using h
    obtain ⟨h1, h2⟩ := foldl_pickMax_le ps p
    constructor
    · rcases foldl_pickMax_mem ps p with he | he
      · rw [← hbp, he]; exact List.mem_cons_self _ _
      · rw [← hbp]; exact List.mem_cons_of_mem _ he
    · intro x hx
      rcases List.mem_cons.mp hx with rfl | hmem
      · rw [← hbp]; exact h1
      · rw [← hbp]; exact h2 x hmem

/-- `bestPair` is defined on every non-empty list. -/
theorem bestPair_isSome (l : List (FactRec × ℚ)) (hne : l ≠ []) :
    ∃ bp, bestPair l = some bp := by
  cases l with
  | nil => exact absurd rfl hne
  | cons p ps => exact ⟨ps.foldl pickMax p, rfl⟩

/-- A hit of `local_similarity_search` is a corpus fact with its cosine
score, the score reaches the threshold, and no corpus fact scores higher. -/
theorem lss_some_spec (sq : ℚ → ℚ) (facts : List FactRec) (q : List ℚ)
    (t : ℚ) (m : RetrievalMatch)
    (h : local_similarity_search sq facts q t = some m) :
    (∃ f ∈ facts, m.text = f.text ∧ m.id = f.id ∧
        m.score = cosineSim sq q f.vector)
    ∧ t ≤ m.score ∧ ∀ f ∈ facts, cosineSim sq q f.vector ≤ m.score := by
  unfold local_similarity_search at h
  split at h
  case isFalse => cases h
  case isTrue hall =>
    rcases hbp : bestPair (facts.map fun f => (f, cosineSim sq q f.vector)) with - | bp
    · rw [hbp] at h; cases h
    · rw [hbp] at h
      change (if bp.2 ≥ t then some (⟨bp.1.text, bp.1.id, bp.2⟩ : RetrievalMatch)
          else none) = some m at h
      by_cases hge : bp.2 ≥ t
      · rw [if_pos hge] at h
        obtain ⟨hmem, hmax⟩ := bestPair_spec _ bp hbp
        obtain ⟨f, hf, hfe⟩ := List.mem_map.mp hmem
        injection h with hm
        subst hm
        refine ⟨⟨f, hf, ?_, ?_, ?_⟩, hge, ?_⟩
        · rw [← hfe]
        · rw [← hfe]
        · rw [← hfe]
        · intro g hg
          exact hmax (g, cosineSim sq q g.vector) (List.mem_map_of_mem _ hg)
      · rw [if_neg hge] at h
        cases h

/-- With a well-shaped corpus, `local_similarity_search` misses exactly when
every corpus fact scores strictly below the threshold (vacuously so for the
empty corpus, where the NumPy code raises and `None` is returned). -/
theorem lss_none_iff (sq : ℚ → ℚ) (facts : List FactRec) (q : List ℚ) (t : ℚ)
    (hshape : ∀ f ∈ facts, f.vector.length = q.length) :
    local_similarity_search sq facts q t = none ↔
      ∀ f ∈ facts, cosineSim sq q f.vector < t := by
  unfold local_similarity_search
  rw [if_pos]
  case hc =>
    rw [List.all_eq_true]
    intro f hf
    exact decide_eq_true (hshape f hf)
  rcases hbp : bestPair (facts.map fun f => (f, cosineSim sq q f.vector)) with - | bp
  · have hnil : facts = [] := by
      rcases facts with - | ⟨f, fs⟩
      · rfl
      · simp [bestPair] at hbp
    subst hnil
    simp
  · obtain ⟨hmem, hmax⟩ := bestPair_spec _ bp hbp
    obtain ⟨f, hf, hfe⟩ := List.mem_map.mp hmem
    show (if bp.2 ≥ t then some (⟨bp.1.text, bp.1.id, bp.2⟩ : RetrievalMatch)
        else none) = none ↔ ∀ f ∈ facts, cosineSim sq q f.vector < t
    by_cases hge : bp.2 ≥ t
    · rw [if_pos hge]
      constructor
      · intro hnone
        cases hnone
      · intro hall
        exfalso
        have hlt : bp.2 < t := by
          have hx := hall f hf
          rw [show cosineSim sq q f.vector = bp.2 from by rw [← hfe]] at hx
          exact hx
        exact absurd hge (not_le_of_lt hlt)
    · rw [if_neg hge]
      constructor
      · intro _ g hg
        exact lt_of_le_of_lt
          (hmax (g, cosineSim sq q g.vector) (List.mem_map_of_mem _ hg))
          (lt_of_not_le hge)
      · intro _
        rfl

/-- On an always-failing transport the candidate-body loop either escapes
with an exception or exhausts all bodies on HTTP errors — it never succeeds. -/
theorem candidateLoop_fail (post : String → ReqBody → PostResult)
    (hfail : postAlwaysFails post) (url : String) :
    ∀ bodies trace lastb,
      (∃ tr, candidateLoop post url bodies trace lastb = .raised tr)
      ∨ ∃ b tr, candidateLoop post url bodies trace lastb = .exhausted b tr := by
  intro bodies
  induction bodies with
  | nil =>
    intro trace lastb
    cases lastb with
    | none => exact Or.inl ⟨trace, rfl⟩
    | some lb => exact Or.inr ⟨lb, trace, rfl⟩
  | cons b rest ih =>
    intro trace lastb
    rcases hfail url b with hp | ⟨st, d, hp, hst⟩
    · exact Or.inl ⟨trace ++ [⟨url, b⟩], by simp [candidateLoop, hp]⟩
    · have hred : candidateLoop post url (b :: rest) trace lastb
          = candidateLoop post url rest (trace ++ [⟨url, b⟩]) (some b) := by
        simp [candidateLoop, hp, hst]
      rw [hred]
      exact ih (trace ++ [⟨url, b⟩]) (some b)

/-- On an always-failing transport the fallback-URL loop returns `none`. -/
theorem fallbackLoop_fail (post : String → ReqBody → PostResult)
    (hfail : postAlwaysFails post) (body : ReqBody) :
    ∀ urls trace, ∃ tr, fallbackLoop post body urls trace = (none, tr) := by
  intro urls
  induction urls with
  | nil => intro trace; exact ⟨trace, rfl⟩
  | cons u rest ih =>
    intro trace
    rcases hfail u body with hp | ⟨st, d, hp, hst⟩
    · rcases ih (trace ++ [⟨u, body⟩]) with ⟨tr, htr⟩
      exact ⟨tr, by simpa [fallbackLoop, hp] using htr⟩
    · rcases ih (trace ++ [⟨u, body⟩]) with ⟨tr, htr⟩
      exact ⟨tr, by simpa [fallbackLoop, hp, hst] using htr⟩

/-- Any envelope produced inside the fallback-URL loop carries source
`llm:gemini` and mode `llm`. -/
theorem fallbackLoop_some (post : String → ReqBody → PostResult) (body : ReqBody) :
    ∀ urls trace env tr, fallbackLoop post body urls trace = (some env, tr) →
      env.source = "llm:gemini" ∧ env.mode = "llm" := by
  intro urls
  induction urls with
  | nil =>
    intro trace env tr h
    injection h with h1 h2
    cases h1
  | cons u rest ih =>
    intro trace env tr h
    rcases hp : post u body with - | ⟨st, d⟩
    · rw [show fallbackLoop post body (u :: rest) trace
          = fallbackLoop post body rest (trace ++ [⟨u, body⟩]) from by
            simp [fallbackLoop, hp]] at h
      exact ih _ _ _ h
    · by_cases hst : 400 ≤ st
      · rw [show fallbackLoop post body (u :: rest) trace
            = fallbackLoop post body rest (trace ++ [⟨u, body⟩]) from by
              simp [fallbackLoop, hp, hst]] at h
        exact ih _ _ _ h
      · rcases d with - | dd
        · rw [show fallbackLoop post body (u :: rest) trace
              = fallbackLoop post body rest (trace ++ [⟨u, body⟩]) from by
                simp [fallbackLoop, hp, hst]] at h
          exact ih _ _ _ h
        · rcases hx : extract_answer2 dd with - | ans
          · rw [show fallbackLoop post body (u :: rest) trace
                = fallbackLoop post body rest (trace ++ [⟨u, body⟩]) from by
                  simp [fallbackLoop, hp, hst, hx]] at h
            exact ih _ _ _ h
          · rw [show fallbackLoop post body (u :: rest) trace
                = (some ⟨ans, "llm:gemini", "llm"⟩, trace ++ [⟨u, body⟩]) from by
                  simp [fallbackLoop, hp, hst, hx]] at h
            injection h with h1 h2
            injection h1 with h1e
            subst h1e
            exact ⟨rfl, rfl⟩

/-- Every envelope leaving the REST path has mode `llm` and one of the two
gemini provenance tags. -/
theorem gemini_rest_wf (q : String) (cfg : GeminiConfig)
    (post : String → ReqBody → PostResult) :
    (gemini_rest q cfg post).1.mode = "llm" ∧
    (gemini_rest q cfg post).1.source ∈
      (["mock", "llm:gemini-sdk", "llm:gemini", "llm:gemini-failed"] : List String) := by
  simp only [gemini_rest]
  split
  case isFalse => exact ⟨rfl, by simp [failEnvelope]⟩
  case isTrue =>
    rcases hcl : candidateLoop post (gemini_api_url cfg) (candidate_bodies_for q cfg) [] none
      with tr | ⟨b, st, d, tr⟩ | ⟨b, tr⟩
    · exact ⟨rfl, by simp [failEnvelope]⟩
    · dsimp only [parse_success]
      rcases d with - | dd
      · exact ⟨rfl, by simp [failEnvelope]⟩
      · dsimp only
        rcases hx : extract_answer dd with - | ans
        · exact ⟨rfl, by simp [failEnvelope]⟩
        · exact ⟨rfl, by simp⟩
    · dsimp only
      rcases hfb : fallbackLoop post b (fallback_attempts (gemini_api_url cfg)) tr
        with ⟨o, tr2⟩
      rcases o with - | env
      · exact ⟨rfl, by simp [failEnvelope]⟩
      · obtain ⟨hs, hm⟩ := fallbackLoop_some post b _ tr env tr2 hfb
        exact ⟨hm, by simp [hs]⟩

/-- On an always-failing transport the whole REST path degrades to the
fixed failure envelope. -/
theorem gemini_rest_fail (q : String) (cfg : GeminiConfig)
    (post : String → ReqBody → PostResult) (hfail : postAlwaysFails post) :
    (gemini_rest q cfg post).1 = failEnvelope := by
  simp only [gemini_rest]
  split
  case isFalse => rfl
  case isTrue =>
    rcases candidateLoop_fail post hfail (gemini_api_url cfg)
        (candidate_bodies_for q cfg) [] none with ⟨tr, htr⟩ | ⟨b, tr, htr⟩
    · rw [htr]
    · rw [htr]
      dsimp only
      rcases fallbackLoop_fail post hfail b (fallback_attempts (gemini_api_url cfg)) tr
        with ⟨tr2, htr2⟩
      rw [htr2]

/-! ## Claim theorems -/

/-- C9: `is_legal_question text` is true exactly when the lower-cased text
contains at least one keyword of the fixed list as a substring, and the
empty (falsy) input yields false. -/
theorem c9_classifier_keyword_iff (text : String) :
    (is_legal_question text = true ↔
      ∃ kw ∈ LEGAL_KEYWORDS, ∃ l r, (pyLower text).toList = l ++ kw.toList ++ r)
    ∧ is_legal_question "" = false := by
  constructor
  · unfold is_legal_question
    split
    case isTrue h =>
      subst h
      constructor
      · intro hfalse
        cases hfalse
      · rintro ⟨kw, hkw, l, r, habs⟩
        exfalso
        have hnil : (pyLower "").toList = ([] : List Char) := rfl
        rw [hnil] at habs
        have hlen := congrArg List.length habs
        simp only [List.length_nil, List.length_append] at hlen
        have hall : ∀ k ∈ LEGAL_KEYWORDS, k.toList ≠ [] := by decide
        exact hall kw hkw (List.eq_nil_of_length_eq_zero (by omega))
    case isFalse h =>
      rw [List.any_eq_true]
      constructor
      · rintro ⟨kw, hkw, hc⟩
        obtain ⟨l, r, he⟩ := (containsSub_iff _ _).mp hc
        exact ⟨kw, hkw, l, r, he⟩
      · rintro ⟨kw, hkw, l, r, he⟩
        exact ⟨kw, hkw, (containsSub_iff _ _).mpr ⟨l, r, he⟩⟩
  · rfl

/-- Witness for C9 at a concrete question containing "court" (with an upper
case letter, exercising the case-insensitive match). -/
theorem c9_witness : is_legal_question "What did the Court say?" = true :=
  ((c9_classifier_keyword_iff "What did the Court say?").1).mpr
    ⟨"court", by decide, "what did the ".toList, " say?".toList, by decide⟩

/-- C7: with a well-shaped corpus, a hit of `local_similarity_search` is the
maximal-cosine corpus fact and its score reaches the threshold; a miss means
every fact scores below the (parametric) threshold; and a zero denominator is
replaced by 1e-12 instead of dividing by zero. -/
theorem c7_local_search_spec (sq : ℚ → ℚ) (facts : List FactRec) (q : List ℚ)
    (t : ℚ) (hshape : ∀ f ∈ facts, f.vector.length = q.length) :
    (∀ m, local_similarity_search sq facts q t = some m →
      (∃ f ∈ facts, m.text = f.text ∧ m.id = f.id ∧
          m.score = cosineSim sq q f.vector)
      ∧ t ≤ m.score ∧ ∀ f ∈ facts, cosineSim sq q f.vector ≤ m.score)
    ∧ (local_similarity_search sq facts q t = none ↔
        ∀ f ∈ facts, cosineSim sq q f.vector < t)
    ∧ ∀ v, sq (sumSq q) * sq (sumSq v) = 0 →
        cosineSim sq q v = dot v q * 1000000000000 := by
  refine ⟨fun m hm => lss_some_spec sq facts q t m hm,
    lss_none_iff sq facts q t hshape, ?_⟩
  intro v hv
  simp only [cosineSim]
  rw [if_pos hv, one_div, div_eq_mul_inv, inv_inv]

/-- Witness for C7: the zero-norm guard at a concrete zero vector, through
the theorem instantiated at the one-fact corpus. -/
theorem c7_witness :
    cosineSim id [1, 0] [0, 0] = dot [0, 0] [1, 0] * 1000000000000 :=
  (c7_local_search_spec id [factPavan] [1, 0] (7/10) (by decide)).2.2 [0, 0]
    (by norm_num [sumSq])

/-- C8: raising the threshold can only turn a hit into a miss, never a miss
into a hit: if the search misses at `t1 ≤ t2` it misses at `t2`. -/
theorem c8_threshold_monotone (sq : ℚ → ℚ) (facts : List FactRec) (q : List ℚ)
    (t1 t2 : ℚ) (h12 : t1 ≤ t2)
    (hnone : local_similarity_search sq facts q t1 = none) :
    local_similarity_search sq facts q t2 = none := by
  unfold local_similarity_search at hnone ⊢
  split at hnone
  case isFalse h => rw [if_neg h]
  case isTrue h =>
    rw [if_pos h]
    rcases hbp : bestPair (facts.map fun f => (f, cosineSim sq q f.vector)) with - | bp
    · rfl
    · rw [hbp] at hnone
      change (if bp.2 ≥ t1 then some (⟨bp.1.text, bp.1.id, bp.2⟩ : RetrievalMatch)
          else none) = none at hnone
      show (if bp.2 ≥ t2 then some (⟨bp.1.text, bp.1.id, bp.2⟩ : RetrievalMatch)
          else none) = none
      by_cases hge : bp.2 ≥ t1
      · rw [if_pos hge] at hnone
        cases hnone
      · rw [if_neg fun hge2 => hge (le_trans h12 hge2)]

/-- Witness for C8: a corpus scoring 0 misses at threshold 1/2, hence at 1. -/
theorem c8_witness : local_similarity_search id [factPavan] [0, 1] 1 = none :=
  c8_threshold_monotone id [factPavan] [0, 1] (1/2) 1 (by norm_num)
    (by norm_num [local_similarity_search, bestPair, pickMax, cosineSim, dot,
      sumSq, factPavan])

/-- C10: `local_similarity_search` is total: the empty corpus yields `none`
(the NumPy argmax raises and the handler returns `None`), a shape mismatch
yields `none` likewise, and every invocation returns a match or `none`. -/
theorem c10_total_search (sq : ℚ → ℚ) (facts : List FactRec) (q : List ℚ)
    (t : ℚ) :
    local_similarity_search sq [] q t = none
    ∧ ((∃ f ∈ facts, f.vector.length ≠ q.length) →
        local_similarity_search sq facts q t = none)
    ∧ (local_similarity_search sq facts q t = none
        ∨ ∃ m, local_similarity_search sq facts q t = some m) := by
  refine ⟨rfl, ?_, ?_⟩
  · rintro ⟨f, hf, hne⟩
    unfold local_similarity_search
    rw [if_neg]
    intro hall
    rw [List.all_eq_true] at hall
    exact hne (of_decide_eq_true (hall f hf))
  · rcases h : local_similarity_search sq facts q t with - | m
    · exact Or.inl rfl
    · exact Or.inr ⟨m, rfl⟩

/-- Witness for C10: a fact vector of length 2 against a query of length 1
(the code would raise inside NumPy and return `None`). -/
theorem c10_witness : local_similarity_search id [factPavan] [1] 1 = none :=
  (c10_total_search id [factPavan] [1] 1).2.1 ⟨factPavan, by decide, by decide⟩

/-- C4: with neither an API key nor a bearer token configured (Python-falsy),
`call_llm` with provider "gemini" immediately returns the fixed mock envelope
(source "mock", non-empty answer) with an empty request trace — no network
call — for every question, SDK outcome and transport. -/
theorem c4_mock_when_unconfigured (question : String) (cfg : GeminiConfig)
    (sdk : Option String) (post : String → ReqBody → PostResult)
    (hk : truthy cfg.api_key = false) (hb : truthy cfg.bearer_token = false) :
    call_llm question "gemini" cfg sdk post = (mockEnvelope, [])
    ∧ mockEnvelope.source = "mock" ∧ mockEnvelope.answer ≠ "" := by
  refine ⟨?_, rfl, by decide⟩
  unfold call_llm
  rw [if_pos (by decide : pyLower "gemini" = "gemini"), if_pos ⟨hk, hb⟩]

/-- Witness for C4 at a concrete unconfigured environment. -/
theorem c4_witness :
    call_llm "hi" "gemini" cfgUnconfigured none postRaise = (mockEnvelope, [])
    ∧ mockEnvelope.source = "mock" ∧ mockEnvelope.answer ≠ "" :=
  c4_mock_when_unconfigured "hi" cfgUnconfigured none postRaise rfl rfl

/-- C5: `call_llm` never raises: every invocation yields an envelope with
mode "llm" and one of the four provenance tags; and whenever credentials are
configured, the SDK produced no usable text and every HTTP attempt fails,
the result is exactly the fixed failure envelope
"LLM request failed (fallback mock)." / "llm:gemini-failed". -/
theorem c5_gateway_total_failure (question provider : String)
    (cfg : GeminiConfig) (sdk : Option String)
    (post : String → ReqBody → PostResult) :
    ((call_llm question provider cfg sdk post).1.mode = "llm"
      ∧ (call_llm question provider cfg sdk post).1.source ∈
        (["mock", "llm:gemini-sdk", "llm:gemini", "llm:gemini-failed"] : List String))
    ∧ (pyLower provider = "gemini" →
       (truthy cfg.api_key = true ∨ truthy cfg.bearer_token = true) →
       (sdk = none ∨ sdk = some "") →
       postAlwaysFails post →
       (call_llm question provider cfg sdk post).1 = failEnvelope) := by
  constructor
  · unfold call_llm
    split
    case isFalse => exact ⟨rfl, by simp [unknownProviderEnvelope]⟩
    case isTrue =>
      split
      case isTrue => exact ⟨rfl, by simp [mockEnvelope]⟩
      case isFalse =>
        rcases sdk with - | t
        · exact gemini_rest_wf question cfg post
        · dsimp only
          by_cases ht : t ≠ ""
          · rw [if_pos ht]
            exact ⟨rfl, by simp [sdkEnvelope]⟩
          · rw [if_neg ht]
            exact gemini_rest_wf question cfg post
  · intro hgem hcred hsdk hfail
    unfold call_llm
    rw [if_pos hgem]
    have hcfg : ¬(truthy cfg.api_key = false ∧ truthy cfg.bearer_token = false) := by
      rcases hcred with h | h
      · intro hc
        rw [hc.1] at h
        cases h
      · intro hc
        rw [hc.2] at h
        cases h
    rw [if_neg hcfg]
    rcases hsdk with rfl | rfl
    · exact gemini_rest_fail question cfg post hfail
    · dsimp only
      rw [if_neg (by simp)]
      exact gemini_rest_fail question cfg post hfail

/-- Witness for C5: configured key, absent SDK, transport that always
raises; the result is the failure envelope. -/
theorem c5_witness :
    (call_llm "hi" "gemini" cfgKeyDefault none postRaise).1 = failEnvelope :=
  (c5_gateway_total_failure "hi" "gemini" cfgKeyDefault none postRaise).2
    (by decide) (Or.inl rfl) (Or.inl rfl) (fun u b => Or.inl rfl)

/-- C6 (code bug): with credentials configured and a non-googleapis endpoint
URL, `call_llm` reaches the manual protocol path, but the source never
assigns `candidate_bodies` on that branch (only the dead local `body`), so
the send loop raises `NameError` and the generic handler returns the failure
envelope: no candidate body is ever posted — here even on a transport that
would answer 200 with a parseable body to every request. -/
theorem c6_generic_url_posts_nothing :
    call_llm "hello" "gemini" cfgKeyGeneric none postOk = (failEnvelope, []) := by
  decide

/-- C1: whenever the 0.70-threshold in-memory search over the corpus hits
(the question's embedding matches some corpus fact at cosine ≥ 0.70), the
endpoint immediately returns that best fact's text with an in-memory
provenance source and mode "retrieved" — with no outward call and no regard
to the intent classifier — and the hit is a maximal-score corpus fact with
score ≥ 0.70. -/
theorem c1_short_circuit (E : AppEnv) (raw : String) (m : RetrievalMatch)
    (hq : pyStrip raw ≠ "")
    (hm : local_similarity_search E.sq E.facts (E.encode (pyStrip raw)) (7/10)
      = some m) :
    query_facts E raw =
      (.ok ⟨m.text, "in-memory:fact-id=" ++ idString m.id, "retrieved"⟩, [])
    ∧ ∃ f ∈ E.facts, m.text = f.text ∧ m.id = f.id
      ∧ m.score = cosineSim E.sq (E.encode (pyStrip raw)) f.vector
      ∧ (7 : ℚ)/10 ≤ m.score := by
  constructor
  · simp only [query_facts]
    rw [if_neg hq, hm]
  · obtain ⟨⟨f, hf, h1, h2, h3⟩, hge, -⟩ :=
      lss_some_spec E.sq E.facts (E.encode (pyStrip raw)) (7/10) m hm
    exact ⟨f, hf, h1, h2, h3, hge⟩

/-- Witness for C1: the sample question about Pavan against the corpus fact
`{id: 2, text: "Pavan has 82 apples"}` at cosine similarity 1. -/
theorem c1_witness :
    query_facts envRetrieve "How many apples does Pavan have?" =
      (.ok ⟨"Pavan has 82 apples", "in-memory:fact-id=" ++ idString (some 2),
            "retrieved"⟩, []) :=
  (c1_short_circuit envRetrieve "How many apples does Pavan have?"
    ⟨"Pavan has 82 apples", some 2, 1⟩ (by decide)
    (by norm_num [local_similarity_search, bestPair, pickMax, cosineSim, dot,
      sumSq, factPavan, envRetrieve])).1

/-- C2 (amended: the claim as frozen omits the `FALLBACK_TO_LLM_FOR_LEGAL`
flag, see the counterexample): for a keyword question with no 0.70-threshold
corpus hit, the vector store unavailable and the LLM-for-legal flag off, the
endpoint makes no outward call at all — in particular it never attempts the
vector store — and answers with mode "legal" whose source is either an
in-memory fact id (loose 0.45 search hit) or "none" with the fixed
"No relevant info found." answer; never an LLM source. -/
theorem c2_legal_no_llm_flag_off (E : AppEnv) (raw : String)
    (hq : pyStrip raw ≠ "")
    (hkw : is_legal_question (pyStrip raw) = true)
    (h07 : local_similarity_search E.sq E.facts (E.encode (pyStrip raw)) (7/10)
      = none)
    (hun : E.qdrant_available = false)
    (hflag : E.fallback_to_llm_for_legal = false) :
    (query_facts E raw).2 = []
    ∧ ((∃ m, local_similarity_search E.sq E.facts (E.encode (pyStrip raw)) (45/100)
          = some m
        ∧ (query_facts E raw).1
          = .ok ⟨m.text, "in-memory:fact-id=" ++ idString m.id, "legal"⟩)
      ∨ (local_similarity_search E.sq E.facts (E.encode (pyStrip raw)) (45/100)
          = none
        ∧ (query_facts E raw).1
          = .ok ⟨"No relevant info found.", "none", "legal"⟩)) := by
  have hred : query_facts E raw
      = legal_fallback E (pyStrip raw) (E.encode (pyStrip raw)) [] := by
    simp only [query_facts]
    rw [if_neg hq, h07]
    dsimp only
    rw [if_pos hkw, if_neg (by simp [hun])]
  rcases h45 : local_similarity_search E.sq E.facts (E.encode (pyStrip raw)) (45/100)
    with - | m
  · have hval : query_facts E raw
        = (.ok ⟨"No relevant info found.", "none", "legal"⟩, []) := by
      rw [hred]
      simp only [legal_fallback]
      rw [h45]
      dsimp only
      rw [if_neg (by simp [hflag])]
    rw [hval]
    exact ⟨rfl, Or.inr ⟨rfl, rfl⟩⟩
  · have hval : query_facts E raw
        = (.ok ⟨m.text, "in-memory:fact-id=" ++ idString m.id, "legal"⟩, []) := by
      rw [hred]
      simp only [legal_fallback]
      rw [h45]
    rw [hval]
    exact ⟨rfl, Or.inl ⟨m, rfl, rfl⟩⟩

/-- Witness for C2: the keyword question "court" against a corpus scoring 0,
with Qdrant unavailable and the flag off: no outward call is made. -/
theorem c2_witness : (query_facts envLegal "court").2 = [] :=
  (c2_legal_no_llm_flag_off envLegal "court" (by decide) (by decide)
    (by norm_num [local_similarity_search, bestPair, pickMax, cosineSim, dot,
      sumSq, factPavan, envLegal])
    rfl rfl).1

/-- C2 counterexample: the claim as frozen quantifies over every
configuration, but with `FALLBACK_TO_LLM_FOR_LEGAL` enabled the keyword
question "court" (no corpus hit, vector store unavailable) is answered with
mode "legal-llm" and the LLM gateway's source "mock" — not mode "legal" with
an in-memory or "none" source — after an LLM gateway call. -/
theorem c2_counterexample :
    query_facts envLegalLLM "court" =
      (.ok ⟨"LLM not configured (mock reply).", "mock", "legal-llm"⟩,
       [.llmCall "court" "gemini"]) := by
  decide

/-- C3: for a trimmed non-empty question with no 0.70-threshold corpus hit
and no classifier keyword, the endpoint calls the LLM gateway and copies the
gateway's answer, source and mode into the envelope unchanged (the mode is
the gateway's own, never re-derived). -/
theorem c3_llm_passthrough (E : AppEnv) (raw : String)
    (hq : pyStrip raw ≠ "")
    (h07 : local_similarity_search E.sq E.facts (E.encode (pyStrip raw)) (7/10)
      = none)
    (hkw : is_legal_question (pyStrip raw) = false) :
    query_facts E raw =
      (.ok ⟨(call_llm (pyStrip raw) E.provider E.llm_cfg E.sdk E.post).1.answer,
            (call_llm (pyStrip raw) E.provider E.llm_cfg E.sdk E.post).1.source,
            (call_llm (pyStrip raw) E.provider E.llm_cfg E.sdk E.post).1.mode⟩,
       [.llmCall (pyStrip raw) E.provider]) := by
  simp only [query_facts]
  rw [if_neg hq, h07]
  dsimp only
  rw [if_neg (by simp [hkw])]

/-- Witness for C3: the keyword-free question "hello" on an empty corpus
with no LLM credentials; the mock gateway envelope is passed through. -/
theorem c3_witness :
    query_facts envGeneric "hello" =
      (.ok ⟨(call_llm (pyStrip "hello") envGeneric.provider envGeneric.llm_cfg
              envGeneric.sdk envGeneric.post).1.answer,
            (call_llm (pyStrip "hello") envGeneric.provider envGeneric.llm_cfg
              envGeneric.sdk envGeneric.post).1.source,
            (call_llm (pyStrip "hello") envGeneric.provider envGeneric.llm_cfg
              envGeneric.sdk envGeneric.post).1.mode⟩,
       [.llmCall (pyStrip "hello") envGeneric.provider]) :=
  c3_llm_passthrough envGeneric "hello" (by decide) rfl (by decide)
